import Mathlib

/-!
Verification of the token-lifecycle subsystem of the flights-chatbot
application: the client JWT utilities (`frontend/lib/utils/jwt.ts`), the
route table (`frontend/lib/config/routes.ts`), the Next.js middleware
(`middleware.ts`), the client expiry monitor (`useTokenExpiration`), the
post-login redirect helper (`useAuthRedirect.ts`), and the refresh popup
handler (`TokenRefreshPopup.tsx`).

JavaScript strings are modelled as `List Char`; JS numbers occurring in
decoded JWT payloads are modelled as exact rationals (`Rat`); the wall
clock `Math.floor(Date.now() / 1000)` is an integer number of seconds.
-/

/-- JS strings (sequences of code units) are modelled as lists of characters. -/
abbrev Str := List Char

/-- Convert a Lean string literal into the `Str` model. -/
def lit (s : String) : Str := s.toList

/-- JS `token.split('.')`: split a string on every occurrence of the dot,
keeping empty segments, so the empty string yields one empty segment. -/
def splitOnDot : Str → List Str
  | [] => [[]]
  | c :: rest =>
    match splitOnDot rest with
    | h :: t => if c = '.' then [] :: h :: t else (c :: h) :: t
    | [] => [[c]]

/-- Value of a standard base64 alphabet character, `none` for anything else. -/
def b64Val (c : Char) : Option Nat :=
  if 'A' ≤ c ∧ c ≤ 'Z' then some (c.toNat - 65)
  else if 'a' ≤ c ∧ c ≤ 'z' then some (c.toNat - 97 + 26)
  else if '0' ≤ c ∧ c ≤ '9' then some (c.toNat - 48 + 52)
  else if c = '+' then some 62
  else if c = '/' then some 63
  else none

/-- ASCII whitespace stripped by the forgiving-base64 decoder behind `atob`. -/
def isB64Ws (c : Char) : Bool :=
  c.toNat = 9 || c.toNat = 10 || c.toNat = 12 || c.toNat = 13 || c.toNat = 32

/-- Remove one or two trailing padding characters. -/
def stripPad (s : Str) : Str :=
  match s.reverse with
  | '=' :: '=' :: rest => rest.reverse
  | '=' :: rest => rest.reverse
  | _ => s

/-- Map every character through the base64 alphabet, failing on any
character outside it. -/
def b64Vals : Str → Option (List Nat)
  | [] => some []
  | c :: rest =>
    match b64Val c, b64Vals rest with
    | some v, some vs => some (v :: vs)
    | _, _ => none

/-- Reassemble six-bit groups into bytes; a trailing group of two or three
characters contributes one or two bytes, its leftover bits discarded. -/
def decode4 : List Nat → List Nat
  | a :: b :: c :: d :: rest =>
    (a * 4 + b / 16) :: ((b % 16) * 16 + c / 4) :: ((c % 4) * 64 + d) :: decode4 rest
  | [a, b, c] => [a * 4 + b / 16, (b % 16) * 16 + c / 4]
  | [a, b] => [a * 4 + b / 16]
  | [_] => []
  | [] => []

/-- The browser `atob` (WHATWG forgiving-base64 decode): strip ASCII
whitespace, drop up to two trailing `=` padding characters when the length
is a multiple of four, reject a leftover length of one modulo four and any
character outside the base64 alphabet, and emit the decoded bytes.
A failure models the `InvalidCharacterError` that `atob` throws. -/
def atob (input : Str) : Option (List Nat) :=
  let s := input.filter (fun c => !(isB64Ws c))
  let s := if s.length % 4 = 0 then stripPad s else s
  if s.length % 4 = 1 then none
  else
    match b64Vals s with
    | none => none
    | some vs => some (decode4 vs)

example : splitOnDot (lit "a.b.c") = [lit "a", lit "b", lit "c"] := by decide
example : splitOnDot (lit "") = [[]] := by decide
example : splitOnDot (lit "a.") = [lit "a", []] := by decide
example : atob (lit "eyJleHAiOjMwMH0=") =
    some [123, 34, 101, 120, 112, 34, 58, 51, 48, 48, 125] := by decide

/-- JSON values produced by `JSON.parse`.  JSON numbers (IEEE doubles in
JS) are modelled as exact rationals; every numeric value appearing in the
claims under verification is an integer number of seconds, where the two
representations agree. -/
inductive JsonVal where
  | null : JsonVal
  | bool (b : Bool) : JsonVal
  | num (q : Rat) : JsonVal
  | str (s : List Char) : JsonVal
  | arr (items : List JsonVal) : JsonVal
  | obj (fields : List (List Char × JsonVal)) : JsonVal

/-- JSON whitespace accepted by `JSON.parse`: space, tab, newline, return. -/
def isJsonWs (c : Char) : Bool :=
  c.toNat = 32 || c.toNat = 9 || c.toNat = 10 || c.toNat = 13

/-- Drop leading JSON whitespace. -/
def skipWs (s : Str) : Str := s.dropWhile isJsonWs

/-- Value of a hexadecimal digit. -/
def hexVal (c : Char) : Option Nat :=
  if '0' ≤ c ∧ c ≤ '9' then some (c.toNat - 48)
  else if 'a' ≤ c ∧ c ≤ 'f' then some (c.toNat - 97 + 10)
  else if 'A' ≤ c ∧ c ≤ 'F' then some (c.toNat - 65 + 10)
  else none

/-- Parse the body of a JSON string after the opening quote, returning the
unescaped contents and the remaining input.  Raw control characters are
rejected; the escapes are those of the JSON grammar.  A surrogate code
unit written with a unicode escape is replaced by NUL, a divergence of the
`Char` model that no claim below reaches. -/
def parseStrBody : Nat → Str → Option (Str × Str)
  | 0, _ => none
  | _, [] => none
  | fuel + 1, c :: rest =>
    if c = '"' then some ([], rest)
    else if c.toNat < 32 then none
    else if c = '\\' then
      match rest with
      | [] => none
      | e :: r2 =>
        let cont (ch : Char) (r : Str) : Option (Str × Str) :=
          match parseStrBody fuel r with
          | some (body, r3) => some (ch :: body, r3)
          | none => none
        if e = '"' ∨ e = '\\' ∨ e = '/' then cont e r2
        else if e = 'b' then cont (Char.ofNat 8) r2
        else if e = 'f' then cont (Char.ofNat 12) r2
        else if e = 'n' then cont (Char.ofNat 10) r2
        else if e = 'r' then cont (Char.ofNat 13) r2
        else if e = 't' then cont (Char.ofNat 9) r2
        else if e = 'u' then
          match r2 with
          | h1 :: h2 :: h3 :: h4 :: r3 =>
            match hexVal h1, hexVal h2, hexVal h3, hexVal h4 with
            | some a, some b, some c2, some d =>
              cont (Char.ofNat (a * 4096 + b * 256 + c2 * 16 + d)) r3
            | _, _, _, _ => none
          | _ => none
        else none
    else
      match parseStrBody fuel rest with
      | some (body, r3) => some (c :: body, r3)
      | none => none

/-- Digits interpreted in base ten. -/
def digitsToNat (ds : Str) : Nat :=
  ds.foldl (fun acc c => 10 * acc + (c.toNat - 48)) 0

/-- Parse a JSON number: optional minus sign, an integer part that is `0`
or starts with a nonzero digit, an optional fraction and exponent.  The
value `mantissa * 10 ^ (exponent - fractionLength)` is assembled with
`mkRat` over naturals so that the kernel can evaluate it. -/
def parseNumber (s : Str) : Option (Rat × Str) :=
  let signed : Bool × Str :=
    match s with
    | c :: r => if c = '-' then (true, r) else (false, s)
    | [] => (false, s)
  let neg := signed.1
  let s1 := signed.2
  let intPart : Option (Str × Str) :=
    match s1 with
    | c :: r =>
      if c = '0' then some ([c], r)
      else if c.isDigit then some (c :: r.takeWhile Char.isDigit, r.dropWhile Char.isDigit)
      else none
    | [] => none
  match intPart with
  | none => none
  | some (ids, s2) =>
    let fracPart : Option (Str × Str) :=
      match s2 with
      | c :: r =>
        if c = '.' then
          let ds := r.takeWhile Char.isDigit
          if ds.isEmpty then none else some (ds, r.dropWhile Char.isDigit)
        else some ([], s2)
      | [] => some ([], s2)
    match fracPart with
    | none => none
    | some (fds, s3) =>
      let expPart : Option (Int × Str) :=
        match s3 with
        | c :: r =>
          if c = 'e' ∨ c = 'E' then
            let signedExp : Bool × Str :=
              match r with
              | e1 :: r2 =>
                if e1 = '-' then (true, r2)
                else if e1 = '+' then (false, r2)
                else (false, r)
              | [] => (false, r)
            let ds := signedExp.2.takeWhile Char.isDigit
            if ds.isEmpty then none
            else
              let ev : Int := Int.ofNat (digitsToNat ds)
              some (if signedExp.1 then -ev else ev, signedExp.2.dropWhile Char.isDigit)
          else some (0, s3)
        | [] => some (0, s3)
      match expPart with
      | none => none
      | some (ev, s4) =>
        let mantissa : Nat := digitsToNat (ids ++ fds)
        let e10 : Int := ev - Int.ofNat fds.length
        let mag : Nat := if 0 ≤ e10 then mantissa * 10 ^ e10.toNat else mantissa
        let den : Nat := if 0 ≤ e10 then 1 else 10 ^ (-e10).toNat
        let sm : Int := if neg then -(mag : Int) else (mag : Int)
        some (mkRat sm den, s4)

mutual

/-- Parse a single JSON value (no leading whitespace). -/
def parseVal : Nat → Str → Option (JsonVal × Str)
  | 0, _ => none
  | fuel + 1, s =>
    match s with
    | [] => none
    | c :: rest =>
      if c = '{' then
        match skipWs rest with
        | '}' :: r2 => some (.obj [], r2)
        | r => match parseMembers fuel r with
          | some (fields, r2) => some (.obj fields, r2)
          | none => none
      else if c = '[' then
        match skipWs rest with
        | ']' :: r2 => some (.arr [], r2)
        | r => match parseItems fuel r with
          | some (items, r2) => some (.arr items, r2)
          | none => none
      else if c = '"' then
        match parseStrBody (fuel + 1) rest with
        | some (body, r2) => some (.str body, r2)
        | none => none
      else if c = 't' then
        match rest with
        | 'r' :: 'u' :: 'e' :: r2 => some (.bool true, r2)
        | _ => none
      else if c = 'f' then
        match rest with
        | 'a' :: 'l' :: 's' :: 'e' :: r2 => some (.bool false, r2)
        | _ => none
      else if c = 'n' then
        match rest with
        | 'u' :: 'l' :: 'l' :: r2 => some (.null, r2)
        | _ => none
      else if c = '-' ∨ c.isDigit then
        match parseNumber s with
        | some (q, r2) => some (.num q, r2)
        | none => none
      else none

/-- Parse the members of a JSON object, positioned at the first key. -/
def parseMembers : Nat → Str → Option (List (List Char × JsonVal) × Str)
  | 0, _ => none
  | fuel + 1, s =>
    match s with
    | '"' :: rest =>
      match parseStrBody (fuel + 1) rest with
      | none => none
      | some (key, r1) =>
        match skipWs r1 with
        | ':' :: r2 =>
          match parseVal fuel (skipWs r2) with
          | none => none
          | some (v, r3) =>
            match skipWs r3 with
            | ',' :: r4 =>
              match parseMembers fuel (skipWs r4) with
              | some (fields, r5) => some ((key, v) :: fields, r5)
              | none => none
            | '}' :: r4 => some ([(key, v)], r4)
            | _ => none
        | _ => none
    | _ => none

/-- Parse the items of a JSON array, positioned at the first item. -/
def parseItems : Nat → Str → Option (List JsonVal × Str)
  | 0, _ => none
  | fuel + 1, s =>
    match parseVal fuel s with
    | none => none
    | some (v, r1) =>
      match skipWs r1 with
      | ',' :: r2 =>
        match parseItems fuel (skipWs r2) with
        | some (items, r3) => some (v :: items, r3)
        | none => none
      | ']' :: r2 => some ([v], r2)
      | _ => none

end

/-- Model of `JSON.parse`: parse one value surrounded by optional
whitespace; anything else raises, modelled by `none`.  The fuel bound
exceeds the maximal possible nesting depth of the input. -/
def jsonParse (s : Str) : Option JsonVal :=
  match parseVal (2 * s.length + 4) (skipWs s) with
  | some (v, rest) => if (skipWs rest).isEmpty then some v else none
  | none => none

example : jsonParse (lit "  [1, 2.5e1, \"a\"] ") =
    some (.arr [.num 1, .num 25, .str (lit "a")]) := rfl
example : jsonParse (lit "[1,]") = none := rfl
example : jsonParse (lit "01") = none := rfl
example : jsonParse (lit "-0.5") = some (.num (mkRat (-1) 2)) := rfl

/-- JS truthiness of a JSON value: `null`, `false`, `0` and the empty
string are falsy, everything else (including `[]` and an empty object) is
truthy. -/
def jsTruthy : JsonVal → Bool
  | .null => false
  | .bool b => b
  | .num q => decide (q ≠ 0)
  | .str s => !s.isEmpty
  | .arr _ => true
  | .obj _ => true

/-- JS property access on a parsed JSON value: on an object, the value of
the last member with the given key (`JSON.parse` keeps the last duplicate);
`none` models `undefined` on a missing key or a non-object. -/
def getField (v : JsonVal) (key : Str) : Option JsonVal :=
  match v with
  | .obj fields => ((fields.filter (fun kv => kv.1 == key)).getLast?).map (fun kv => kv.2)
  | _ => none

/-- Preparation of the JWT payload segment performed by `parseJWT` before
`atob`: append `'='.repeat((4 - payload.length % 4) % 4)`, then replace
every `-` with `+` and every `_` with `/`. -/
def b64urlPrep (payload : Str) : Str :=
  let padded := payload ++ List.replicate ((4 - payload.length % 4) % 4) '='
  padded.map (fun c => if c = '-' then '+' else if c = '_' then '/' else c)

/-- Model of `parseJWT` (frontend/lib/utils/jwt.ts): split on dots, demand
exactly three segments, base64url-decode the second and parse it as JSON.
Every failure that throws in JS is caught there and returned as `null`,
modelled by `none`. -/
def parseJWT (token : Str) : Option JsonVal :=
  match splitOnDot token with
  | [_header, payload, _sig] =>
    match atob (b64urlPrep payload) with
    | none => none
    | some bytes => jsonParse (bytes.map Char.ofNat)
  | _ => none

/-- Model of `isTokenExpired` (frontend/lib/utils/jwt.ts): expired when the
payload cannot be parsed or its `exp` member is falsy, otherwise the value
of `payload.exp < currentTime` with the current time in whole seconds.
A truthy non-numeric `exp` would compare through `NaN` in JS, and every
such comparison is false; no JWT under consideration carries one. -/
def isTokenExpired (token : Str) (now : Int) : Bool :=
  match parseJWT token with
  | none => true
  | some payload =>
    match getField payload (lit "exp") with
    | none => true
    | some expVal =>
      if jsTruthy expVal then
        match expVal with
        | .num q => decide (q < (now : Rat))
        | _ => false
      else true

/-- Model of `getTokenExpirationTime` (frontend/lib/utils/jwt.ts):
`parseJWT(token)?.exp || null`, so `none` models both `null` and a falsy
`exp`; the runtime value of the `exp` member is returned unchanged. -/
def getTokenExpirationTime (token : Str) : Option JsonVal :=
  match parseJWT token with
  | none => none
  | some payload =>
    match getField payload (lit "exp") with
    | none => none
    | some v => if jsTruthy v then some v else none

/-- Route prefixes requiring authentication (frontend/lib/config/routes.ts). -/
def PROTECTED_ROUTES : List Str :=
  [lit "/flights", lit "/bookings", lit "/chat", lit "/test-auth", lit "/token-test"]

/-- Public routes that do not require authentication. -/
def PUBLIC_ROUTES : List Str := [lit "/", lit "/login", lit "/register"]

/-- Routes the middleware ignores entirely (API, static assets, internals). -/
def IGNORED_ROUTES : List Str :=
  [lit "/api", lit "/_next", lit "/favicon.ico", lit "/images", lit "/static", lit "/public"]

/-- Authentication pages. -/
def AUTH_ROUTES : List Str := [lit "/login", lit "/register"]

/-- Default landing path for an authenticated user. -/
def DEFAULT_LOGIN_REDIRECT : Str := lit "/flights"

/-- JS `pathname.startsWith(route)`. -/
def startsWith (s p : Str) : Bool := p.isPrefixOf s

/-- Model of `isProtectedRoute`. -/
def isProtectedRoute (pathname : Str) : Bool :=
  PROTECTED_ROUTES.any (fun route => startsWith pathname route)

/-- Model of `isPublicRoute`: the root matches exactly, every other public
route matches exactly or as the prefix `route + '/'`. -/
def isPublicRoute (pathname : Str) : Bool :=
  PUBLIC_ROUTES.any (fun route =>
    if route == lit "/" then pathname == route
    else pathname == route || startsWith pathname (route ++ lit "/"))

/-- Model of `isAuthRoute`. -/
def isAuthRoute (pathname : Str) : Bool :=
  AUTH_ROUTES.any (fun route => startsWith pathname route)

/-- Model of `isIgnoredRoute`. -/
def isIgnoredRoute (pathname : Str) : Bool :=
  IGNORED_ROUTES.any (fun route => startsWith pathname route)

/-- Outcome of one middleware run: either pass the request through, or
redirect to `redirectTo` (carrying at most a `redirect` query parameter),
possibly deleting the `access_token` cookie on the response. -/
structure MwResponse where
  redirectTo : Option Str
  redirectParam : Option Str
  deleteAccessToken : Bool
deriving DecidableEq, Repr

/-- The untouched pass-through response (`NextResponse.next()`). -/
def nextResponse : MwResponse :=
  { redirectTo := none, redirectParam := none, deleteAccessToken := false }

/-- Model of `redirectToLogin` (middleware.ts): redirect to `/login`,
attaching the requested path as the `redirect` query parameter unless that
path is `/login` itself. -/
def redirectToLogin (pathname : Str) : MwResponse :=
  { redirectTo := some (lit "/login")
    redirectParam := if pathname == lit "/login" then none else some pathname
    deleteAccessToken := false }

/-- JS truthiness of the cookie value `request.cookies.get(...)?.value`:
falsy when the cookie is absent or empty. -/
def tokenTruthy (cookieToken : Option Str) : Bool :=
  match cookieToken with
  | none => false
  | some t => !t.isEmpty

/-- Model of `middleware` (middleware.ts).  `pathname` is the request
path, `cookieToken` the raw `access_token` cookie value, `now` the current
time in whole seconds used by the expiry check. -/
def middleware (pathname : Str) (cookieToken : Option Str) (now : Int) : MwResponse :=
  if isIgnoredRoute pathname then nextResponse
  else
    let isProtected := isProtectedRoute pathname
    let isPublic := isPublicRoute pathname
    let isAuth := isAuthRoute pathname
    if isPublic && !isAuth then nextResponse
    else if isProtected then
      if !(tokenTruthy cookieToken) then redirectToLogin pathname
      else if isTokenExpired (cookieToken.getD []) now then
        { redirectToLogin pathname with deleteAccessToken := true }
      else nextResponse
    else if isAuth && tokenTruthy cookieToken
        && !(isTokenExpired (cookieToken.getD []) now) then
      { redirectTo := some DEFAULT_LOGIN_REDIRECT, redirectParam := none
        deleteAccessToken := false }
    else nextResponse

/-- State of the client expiry monitor (`useTokenExpiration`):
`timeRemaining` is in minutes, as the hook stores it. -/
structure MonitorState where
  showPopup : Bool
  timeRemaining : Rat
  isExpired : Bool
  popupDismissed : Bool
deriving DecidableEq, Repr

/-- The hook's initial state. -/
def initialMonitorState : MonitorState :=
  { showPopup := false, timeRemaining := 0, isExpired := false, popupDismissed := false }

/-- Model of one `checkTokenExpiration` tick of `useTokenExpiration`
(frontend/lib/hooks/useTokenExpiration.ts).  React state updates are
modelled as immediate field updates.  In the unreachable-in-practice case
of a truthy non-numeric `exp` the JS code stores `NaN` and both popup
conditions are false; the model then leaves `timeRemaining` unchanged and
records `isExpired := false`, which no claim below inspects. -/
def checkTokenExpiration (warningMinutes : Rat) (cookieToken : Option Str)
    (now : Int) (s : MonitorState) : MonitorState :=
  if !(tokenTruthy cookieToken) then
    { s with isExpired := true, showPopup := false }
  else
    let token := cookieToken.getD []
    if isTokenExpired token now then
      { s with isExpired := true, showPopup := false }
    else
      match getTokenExpirationTime token with
      | none => s
      | some (.num expirationTime) =>
        let timeLeftMinutes : Rat := (expirationTime - (now : Rat)) / 60
        let s1 := { s with timeRemaining := timeLeftMinutes, isExpired := false }
        if timeLeftMinutes ≤ warningMinutes ∧ 0 < timeLeftMinutes ∧ s1.popupDismissed = false
        then { s1 with showPopup := true }
        else if warningMinutes < timeLeftMinutes
        then { s1 with showPopup := false, popupDismissed := false }
        else s1
      | some _ => { s with isExpired := false }

/-- Model of `dismissPopup`: hide the popup and remember the dismissal. -/
def dismissPopup (s : MonitorState) : MonitorState :=
  { s with showPopup := false, popupDismissed := true }

/-- Model of `resetTimer`: clear the dismissal state and the popup, then
run an immediate expiration check. -/
def resetTimer (warningMinutes : Rat) (cookieToken : Option Str)
    (now : Int) (s : MonitorState) : MonitorState :=
  checkTokenExpiration warningMinutes cookieToken now
    { s with popupDismissed := false, showPopup := false }

/-- Model of `redirectAfterLogin` (frontend/lib/hooks/useAuthRedirect.ts):
`redirectPath` is `searchParams.get('redirect')` (`none` models `null`);
navigate there when it is truthy and different from `'/login'`, otherwise
navigate to `/flights`. -/
def redirectAfterLogin (redirectPath : Option Str) : Str :=
  match redirectPath with
  | some p => if p.isEmpty = false ∧ p ≠ lit "/login" then p else lit "/flights"
  | none => lit "/flights"

/-- Client-visible session state around the refresh popup: the stored
cookie, the user context, the current route (navigation target), the
popup visibility and the refresh-in-flight flag, plus the monitor state. -/
structure ClientState where
  cookieToken : Option Str
  userCtx : Option Str
  route : Str
  popupOpen : Bool
  isRefreshing : Bool
  monitor : MonitorState
deriving DecidableEq, Repr

/-- Outcome of the `refreshToken()` network call: on success the server
responds with a fresh token and re-sets the cookie, and `refreshUser`
reloads the user context; any thrown error is `failure`. -/
inductive RefreshOutcome where
  | success (newToken : Str) (newUser : Option Str) : RefreshOutcome
  | failure : RefreshOutcome

/-- Model of `handleRefresh` (frontend/components/auth/TokenRefreshPopup.tsx):
set the in-flight flag, attempt the refresh; on success the cookie is
replaced by the response, the user context reloaded, the `onRefresh` and
`onClose` callbacks run in order; on failure the catch block only logs.
Either way the finally block clears the in-flight flag. -/
def handleRefresh (onRefresh onClose : ClientState → ClientState)
    (st : ClientState) (outcome : RefreshOutcome) : ClientState :=
  let st1 := { st with isRefreshing := true }
  match outcome with
  | .success newToken newUser =>
    let st2 := { st1 with cookieToken := some newToken }
    let st3 := { st2 with userCtx := newUser }
    let st4 := onClose (onRefresh st3)
    { st4 with isRefreshing := false }
  | .failure => { st1 with isRefreshing := false }

/-- A concrete well-formed JWT whose payload decodes to `{"exp": 300}`. -/
def tok300 : Str := lit "hdr.eyJleHAiOjMwMH0.sig"

/-- A concrete well-formed JWT whose payload decodes to `{"a": 1}` (no
`exp` member). -/
def tokNoExp : Str := lit "hdr.eyJhIjoxfQ.sig"

example : parseJWT tok300 = some (.obj [(lit "exp", .num 300)]) := rfl
example : parseJWT tokNoExp = some (.obj [(lit "a", .num 1)]) := rfl
example : isTokenExpired tok300 300 = false := rfl
example : isTokenExpired tok300 301 = true := rfl
example : isTokenExpired tokNoExp 0 = true := rfl
example : middleware (lit "/flights") none 0 =
    { redirectTo := some (lit "/login"), redirectParam := some (lit "/flights")
      deleteAccessToken := false } := rfl
example : middleware (lit "/api/users") (some tok300) 9999 = nextResponse := rfl

/-! Helper lemmas about prefix matching and the route tables. -/

theorem isPrefixOf_total : ∀ (s p q : Str),
    p.isPrefixOf s = true → q.isPrefixOf s = true →
    p.isPrefixOf q = true ∨ q.isPrefixOf p = true := by
  intro s
  induction s with
  | nil =>
    intro p q hp hq
    cases p <;> cases q <;> simp_all [List.isPrefixOf]
  | cons c rest ih =>
    intro p q hp hq
    cases p with
    | nil => left; simp [List.isPrefixOf]
    | cons a as =>
      cases q with
      | nil => right; simp [List.isPrefixOf]
      | cons b bs =>
        simp only [List.isPrefixOf, Bool.and_eq_true, beq_iff_eq] at hp hq ⊢
        obtain ⟨rfl, hp2⟩ := hp
        obtain ⟨rfl, hq2⟩ := hq
        rcases ih as bs hp2 hq2 with h | h
        · exact Or.inl ⟨rfl, h⟩
        · exact Or.inr ⟨rfl, h⟩

/-- Two prefixes of the same string are comparable, so if neither of two
route patterns is a prefix of the other, no path matches both. -/
theorem startsWith_excl {s p q : Str}
    (hpq : p.isPrefixOf q = false) (hqp : q.isPrefixOf p = false)
    (hp : startsWith s p = true) (hq : startsWith s q = true) : False := by
  unfold startsWith at hp hq
  rcases isPrefixOf_total s p q hp hq with h | h
  · rw [hpq] at h; exact Bool.false_ne_true h
  · rw [hqp] at h; exact Bool.false_ne_true h

theorem protected_shape {p : Str} (h : isProtectedRoute p = true) :
    startsWith p (lit "/flights") = true ∨ startsWith p (lit "/bookings") = true ∨
    startsWith p (lit "/chat") = true ∨ startsWith p (lit "/test-auth") = true ∨
    startsWith p (lit "/token-test") = true := by
  simpa [isProtectedRoute, PROTECTED_ROUTES, List.any_cons, List.any_nil,
    Bool.or_eq_true] using h

theorem public_shape {p : Str} (h : isPublicRoute p = true) :
    p = lit "/" ∨ p = lit "/login" ∨ p = lit "/register" ∨
    startsWith p (lit "/login/") = true ∨ startsWith p (lit "/register/") = true := by
  have e1 : (lit "/login" : Str) ≠ lit "/" := by decide
  have e2 : (lit "/register" : Str) ≠ lit "/" := by decide
  have a1 : (lit "/login" : Str) ++ lit "/" = lit "/login/" := by decide
  have a2 : (lit "/register" : Str) ++ lit "/" = lit "/register/" := by decide
  simp only [isPublicRoute, PUBLIC_ROUTES, List.any_cons, List.any_nil, beq_iff_eq,
    e1, e2, a1, a2, if_true, if_false, ite_true, ite_false, Bool.or_eq_true,
    Bool.or_false, decide_eq_true_eq] at h
  tauto

/-- A protected path is never a public path: the protected prefixes are
pairwise prefix-incompatible with every public pattern. -/
theorem protected_not_public {p : Str} (h : isProtectedRoute p = true) :
    isPublicRoute p = false := by
  by_contra hne
  have hpub : isPublicRoute p = true := by
    cases hval : isPublicRoute p
    · exact absurd hval hne
    · rfl
  rcases protected_shape h with hs | hs | hs | hs | hs <;>
    rcases public_shape hpub with hq | hq | hq | hq | hq <;>
      first
        | (subst hq; revert hs; decide)
        | exact startsWith_excl (by decide) (by decide) hs hq

/-- A protected path is never the login page. -/
theorem protected_ne_login {p : Str} (h : isProtectedRoute p = true) :
    p ≠ lit "/login" := by
  intro he
  subst he
  revert h
  decide

/-! Helper lemmas about the token utilities. -/

theorem parseJWT_ne_nil {t : Str} {p : JsonVal} (hp : parseJWT t = some p) : t ≠ [] := by
  intro he
  subst he
  exact Option.noConfusion hp

theorem tokenTruthy_of_ne_nil {t : Str} (h : t ≠ []) : tokenTruthy (some t) = true := by
  cases t with
  | nil => exact absurd rfl h
  | cons c rest => rfl

theorem not_expired_of_le {t : Str} {p : JsonVal} {E : Rat} {now : Int}
    (hp : parseJWT t = some p) (he : getField p (lit "exp") = some (.num E)) (hE : E ≠ 0)
    (hle : (now : Rat) ≤ E) : isTokenExpired t now = false := by
  unfold isTokenExpired
  simp only [hp]
  simp [he, jsTruthy, hE, not_lt.mpr hle]

theorem expiration_time_of_num {t : Str} {p : JsonVal} {E : Rat}
    (hp : parseJWT t = some p) (he : getField p (lit "exp") = some (.num E)) (hE : E ≠ 0) :
    getTokenExpirationTime t = some (.num E) := by
  unfold getTokenExpirationTime
  simp only [hp]
  simp [he, jsTruthy, hE]

/-! C1. -/

/-- C1 (amended): for every token whose decoded payload carries a numeric
nonzero expiry timestamp `E` (in seconds), `isTokenExpired` reports
expired exactly at the instants `now` with `E < now`, i.e. strictly after
the expiry second; at `now = E` and at every earlier instant the token is
still treated as valid. -/
theorem isTokenExpired_expires_strictly_after (t : Str) (p : JsonVal) (E : Rat) (now : Int)
    (hp : parseJWT t = some p) (he : getField p (lit "exp") = some (.num E)) (hE : E ≠ 0) :
    isTokenExpired t now = true ↔ E < (now : Rat) := by
  unfold isTokenExpired
  simp only [hp]
  simp [he, jsTruthy, hE]

/-- Witness for C1 at a concrete token with `exp = 300`: one second past
the expiry instant the check reports expired. -/
theorem isTokenExpired_expires_strictly_after_witness :
    isTokenExpired tok300 301 = true :=
  (isTokenExpired_expires_strictly_after tok300 (.obj [(lit "exp", .num 300)]) 300 301
    rfl rfl (by norm_num)).mpr (by norm_num)

/-- C1 counterexample: at `now = exp` exactly (`exp = 300`, `now = 300`)
the code reports the token as not expired, while the claim demands
expired exactly at `now == exp`. -/
theorem isTokenExpired_at_exp_valid :
    parseJWT tok300 = some (.obj [(lit "exp", .num 300)]) ∧
    isTokenExpired tok300 300 = false := ⟨rfl, rfl⟩

/-! C2. -/

/-- C2 (amended): at a monitor tick on a parseable token with numeric
nonzero expiry `E` and warning window 5 minutes, with `remaining =
E - now` in seconds: at `remaining = 301` the signal is ok (no popup, not
expired, dismissal re-armed); at `remaining = 300` with the popup not
previously dismissed the signal is expiring-soon (popup shown, not
expired); at `remaining = 0` exactly the code does not report expired:
the tick records `isExpired = false` and leaves the popup untouched. -/
theorem checkTokenExpiration_boundaries (t : Str) (p : JsonVal) (E : Rat) (now : Int)
    (s : MonitorState)
    (hp : parseJWT t = some p) (he : getField p (lit "exp") = some (.num E)) (hE : E ≠ 0) :
    (E - (now : Rat) = 301 →
      (checkTokenExpiration 5 (some t) now s).showPopup = false ∧
      (checkTokenExpiration 5 (some t) now s).isExpired = false ∧
      (checkTokenExpiration 5 (some t) now s).popupDismissed = false) ∧
    (E - (now : Rat) = 300 → s.popupDismissed = false →
      (checkTokenExpiration 5 (some t) now s).showPopup = true ∧
      (checkTokenExpiration 5 (some t) now s).isExpired = false) ∧
    (E - (now : Rat) = 0 →
      (checkTokenExpiration 5 (some t) now s).isExpired = false ∧
      (checkTokenExpiration 5 (some t) now s).showPopup = s.showPopup) := by
  have httr : tokenTruthy (some t) = true := tokenTruthy_of_ne_nil (parseJWT_ne_nil hp)
  have hget : getTokenExpirationTime t = some (.num E) := expiration_time_of_num hp he hE
  refine ⟨fun h301 => ?_, fun h300 hD => ?_, fun h0 => ?_⟩
  · have hne : isTokenExpired t now = false :=
      not_expired_of_le hp he hE (by linarith [h301])
    norm_num [checkTokenExpiration, Option.getD, httr, hne, hget, h301]
  · have hne : isTokenExpired t now = false :=
      not_expired_of_le hp he hE (by linarith [h300])
    norm_num [checkTokenExpiration, Option.getD, httr, hne, hget, h300, hD]
  · have hne : isTokenExpired t now = false :=
      not_expired_of_le hp he hE (by linarith [h0])
    norm_num [checkTokenExpiration, Option.getD, httr, hne, hget, h0]

/-- Witness for C2 at the concrete token with `exp = 300` and ticks with
301, 300 and 0 seconds remaining. -/
theorem checkTokenExpiration_boundaries_witness :
    (checkTokenExpiration 5 (some tok300) (-1) initialMonitorState).showPopup = false ∧
    (checkTokenExpiration 5 (some tok300) 0 initialMonitorState).showPopup = true ∧
    (checkTokenExpiration 5 (some tok300) 300 initialMonitorState).isExpired = false := by
  refine ⟨?_, ?_, ?_⟩
  · exact ((checkTokenExpiration_boundaries tok300 (.obj [(lit "exp", .num 300)]) 300 (-1)
      initialMonitorState rfl rfl (by norm_num)).1 (by norm_num)).1
  · exact ((checkTokenExpiration_boundaries tok300 (.obj [(lit "exp", .num 300)]) 300 0
      initialMonitorState rfl rfl (by norm_num)).2.1 (by norm_num) rfl).1
  · exact ((checkTokenExpiration_boundaries tok300 (.obj [(lit "exp", .num 300)]) 300 300
      initialMonitorState rfl rfl (by norm_num)).2.2 (by norm_num)).1

/-- C2 counterexample: on the concrete token with `exp = 300`, at the tick
with exactly 0 seconds remaining (`now = 300`) the monitor records
`isExpired = false`, while the claim demands the expired signal. -/
theorem checkTokenExpiration_zero_remaining :
    getTokenExpirationTime tok300 = some (.num 300) ∧
    checkTokenExpiration 5 (some tok300) 300 initialMonitorState =
      { showPopup := false, timeRemaining := 0, isExpired := false,
        popupDismissed := false } := by
  refine ⟨rfl, ?_⟩
  have h0 : tokenTruthy (some tok300) = true := rfl
  have h1 : isTokenExpired tok300 300 = false := rfl
  have h2 : getTokenExpirationTime tok300 = some (.num 300) := rfl
  norm_num [checkTokenExpiration, Option.getD, h0, h1, h2, initialMonitorState]

/-! C3. -/

/-- C3: a request to the protected path `/flights` with no `access_token`
cookie is redirected to `/login` carrying `redirect=/flights`; and a
request to `/login` carrying an unexpired token is redirected to the
default landing path `/flights` (never back to `/login`), with no
`redirect` parameter. -/
theorem middleware_scenario_roundtrip :
    (∀ now : Int, middleware (lit "/flights") none now =
      { redirectTo := some (lit "/login"), redirectParam := some (lit "/flights"),
        deleteAccessToken := false }) ∧
    (∀ (t : Str) (now : Int), isTokenExpired t now = false →
      middleware (lit "/login") (some t) now =
        { redirectTo := some (lit "/flights"), redirectParam := none,
          deleteAccessToken := false }) := by
  constructor
  · intro now
    rfl
  · intro t now h
    have ht : t ≠ [] := by
      intro he
      subst he
      have hnil : isTokenExpired [] now = true := rfl
      rw [hnil] at h
      exact Bool.noConfusion h
    have ht' : t.isEmpty = false := by
      cases t with
      | nil => exact absurd rfl ht
      | cons c rest => rfl
    have hred : middleware (lit "/login") (some t) now =
        if !t.isEmpty && !(isTokenExpired t now) then
          { redirectTo := some (lit "/flights"), redirectParam := none,
            deleteAccessToken := false }
        else nextResponse := rfl
    rw [hred, ht', h]
    rfl

/-- Witness for C3: the unexpired-token half at the concrete token with
`exp = 300` and `now = 0`. -/
theorem middleware_scenario_roundtrip_witness :
    middleware (lit "/login") (some tok300) 0 =
      { redirectTo := some (lit "/flights"), redirectParam := none,
        deleteAccessToken := false } :=
  middleware_scenario_roundtrip.2 tok300 0 rfl

/-! C4. -/

/-- C4: for every protected (and not ignored) path, a request carrying a
nonempty `access_token` cookie that fails the expiry check is redirected
to `/login` with the originally requested path in the `redirect`
parameter, and the `access_token` cookie is deleted on that response. -/
theorem middleware_expired_token_cleanup (path t : Str) (now : Int)
    (hprot : isProtectedRoute path = true) (hign : isIgnoredRoute path = false)
    (ht : t ≠ []) (hexp : isTokenExpired t now = true) :
    middleware path (some t) now =
      { redirectTo := some (lit "/login"), redirectParam := some path,
        deleteAccessToken := true } := by
  have hpub : isPublicRoute path = false := protected_not_public hprot
  have hlog : (path == lit "/login") = false := by
    have := protected_ne_login hprot
    simpa using this
  have ht' : t.isEmpty = false := by
    cases t with
    | nil => exact absurd rfl ht
    | cons c rest => rfl
  unfold middleware
  rw [hign]
  simp only [hpub, hprot, hexp, tokenTruthy, ht', Option.getD, Bool.false_and,
    Bool.not_false, Bool.and_false, Bool.true_and, Bool.not_true, if_false, ite_false,
    Bool.false_eq_true, if_true, ite_true]
  simp [redirectToLogin, hlog]

/-- Witness for C4 at the concrete protected path `/flights` with the
`exp = 300` token one second after expiry. -/
theorem middleware_expired_token_cleanup_witness :
    middleware (lit "/flights") (some tok300) 301 =
      { redirectTo := some (lit "/login"), redirectParam := some (lit "/flights"),
        deleteAccessToken := true } :=
  middleware_expired_token_cleanup (lit "/flights") tok300 301 (by decide) (by decide)
    (by decide) rfl

/-! C5. -/

/-- C5 (amended): after authentication, `redirectAfterLogin` navigates to
the `redirect` query target whenever one is present, nonempty and not
exactly `/login`, and falls back to the default landing path `/flights`
only when the target is absent, empty, or exactly `/login`.  A `/register`
target, although an auth-only page, is followed as given, not replaced by
the fallback. -/
theorem redirectAfterLogin_target_rules (rp : Option Str) :
    ((rp = none ∨ rp = some [] ∨ rp = some (lit "/login")) →
      redirectAfterLogin rp = lit "/flights") ∧
    (∀ p, rp = some p → p ≠ [] → p ≠ lit "/login" → redirectAfterLogin rp = p) := by
  constructor
  · rintro (rfl | rfl | rfl)
    · rfl
    · rfl
    · simp [redirectAfterLogin]
  · rintro p rfl hne hlog
    have hp' : p.isEmpty = false := by
      cases p with
      | nil => exact absurd rfl hne
      | cons c rest => rfl
    simp [redirectAfterLogin, hp', hlog]

/-- Witness for C5: a genuine protected return target is followed, an
absent target falls back to `/flights`. -/
theorem redirectAfterLogin_target_rules_witness :
    redirectAfterLogin (some (lit "/bookings")) = lit "/bookings" ∧
    redirectAfterLogin none = lit "/flights" :=
  ⟨(redirectAfterLogin_target_rules (some (lit "/bookings"))).2 (lit "/bookings") rfl
      (by decide) (by decide),
    (redirectAfterLogin_target_rules none).1 (Or.inl rfl)⟩

/-- C5 counterexample: the target `/register` is an auth-only page
(a member of `AUTH_ROUTES`), yet `redirectAfterLogin` navigates to it
instead of falling back to `/flights`. -/
theorem redirectAfterLogin_register_followed :
    (lit "/register") ∈ AUTH_ROUTES ∧
    redirectAfterLogin (some (lit "/register")) = lit "/register" := by
  refine ⟨by simp [AUTH_ROUTES], ?_⟩
  simp [redirectAfterLogin, lit]

/-! C6. -/

/-- C6: at every monitor tick where the stored cookie is missing (or the
falsy empty string), or present but unparseable as a three-part JWT with a
JSON payload, the monitor emits the expired signal: `isExpired` is set and
the popup hidden.  The model is total, so no exception is possible. -/
theorem monitor_missing_token_expired (w : Rat) (now : Int) (s : MonitorState) :
    ((checkTokenExpiration w none now s).isExpired = true ∧
      (checkTokenExpiration w none now s).showPopup = false) ∧
    (∀ t : Str, parseJWT t = none →
      (checkTokenExpiration w (some t) now s).isExpired = true ∧
      (checkTokenExpiration w (some t) now s).showPopup = false) := by
  constructor
  · exact ⟨rfl, rfl⟩
  · intro t hp
    cases t with
    | nil => exact ⟨rfl, rfl⟩
    | cons c rest =>
      have hexp : isTokenExpired (c :: rest) now = true := by
        unfold isTokenExpired
        simp [hp]
      constructor <;>
        norm_num [checkTokenExpiration, tokenTruthy, Option.getD, hexp]

/-- Witness for C6 on a concrete unparseable cookie value. -/
theorem monitor_missing_token_expired_witness :
    (checkTokenExpiration 5 (some (lit "garbage")) 0 initialMonitorState).isExpired = true :=
  ((monitor_missing_token_expired 5 0 initialMonitorState).2 (lit "garbage") rfl).1

/-! C7. -/

/-- A tick never sets the dismissal flag: if it is clear before the tick
it is clear after it. -/
theorem check_dismissed_stays_false (w : Rat) (cookie : Option Str) (now : Int)
    (s : MonitorState) (hD : s.popupDismissed = false) :
    (checkTokenExpiration w cookie now s).popupDismissed = false := by
  unfold checkTokenExpiration
  dsimp only
  split
  · simpa using hD
  · split
    · simpa using hD
    · split
      · simpa using hD
      · split
        · simpa using hD
        · split
          · simp [hD]
          · simp [hD]
      · simpa using hD

/-- Characterization of a tick on a token with a parseable numeric nonzero
expiry that has not yet passed. -/
theorem check_numeric_shape (w : Rat) (t : Str) (p : JsonVal) (E : Rat) (now : Int)
    (s : MonitorState)
    (hp : parseJWT t = some p) (he : getField p (lit "exp") = some (.num E)) (hE : E ≠ 0)
    (hnow : (now : Rat) ≤ E) :
    checkTokenExpiration w (some t) now s =
      if (E - (now : Rat)) / 60 ≤ w ∧ 0 < (E - (now : Rat)) / 60 ∧ s.popupDismissed = false
      then { s with timeRemaining := (E - (now : Rat)) / 60, isExpired := false,
                    showPopup := true }
      else if w < (E - (now : Rat)) / 60
      then { s with timeRemaining := (E - (now : Rat)) / 60, isExpired := false,
                    showPopup := false, popupDismissed := false }
      else { s with timeRemaining := (E - (now : Rat)) / 60, isExpired := false } := by
  have httr : tokenTruthy (some t) = true := tokenTruthy_of_ne_nil (parseJWT_ne_nil hp)
  have hne : isTokenExpired t now = false := not_expired_of_le hp he hE hnow
  have hget : getTokenExpirationTime t = some (.num E) := expiration_time_of_num hp he hE
  simp only [checkTokenExpiration, httr, Bool.not_true, Option.getD, hne, hget]
  rfl

/-- C7: once the popup is dismissed, a tick whose remaining lifetime stays
within the warning window (`0 < remaining ≤ 60 * warning`) keeps the popup
hidden and the dismissal in force; the dismissal is cleared exactly by a
tick whose remaining lifetime is back above the window and by `resetTimer`
(run after a successful refresh), while ticks seeing a missing, falsy or
expired token leave the dismissal flag untouched. -/
theorem monitor_dismissal_protocol (w : Rat) (t : Str) (p : JsonVal) (E : Rat)
    (now : Int) (s : MonitorState)
    (hp : parseJWT t = some p) (he : getField p (lit "exp") = some (.num E)) (hE : E ≠ 0) :
    (s.popupDismissed = true → s.showPopup = false →
      0 < E - (now : Rat) → E - (now : Rat) ≤ 60 * w →
      (checkTokenExpiration w (some t) now s).showPopup = false ∧
      (checkTokenExpiration w (some t) now s).popupDismissed = true) ∧
    (0 ≤ w → 60 * w < E - (now : Rat) →
      (checkTokenExpiration w (some t) now s).popupDismissed = false ∧
      (checkTokenExpiration w (some t) now s).showPopup = false) ∧
    (∀ (cookie : Option Str) (s9 : MonitorState),
      (resetTimer w cookie now s9).popupDismissed = false) ∧
    (isTokenExpired t now = true →
      (checkTokenExpiration w (some t) now s).popupDismissed = s.popupDismissed) ∧
    (∀ cookie : Option Str, tokenTruthy cookie = false →
      (checkTokenExpiration w cookie now s).popupDismissed = s.popupDismissed) := by
  have h60 : (0 : Rat) < 60 := by norm_num
  refine ⟨fun hd hpop hlo hhi => ?_, fun hw hhi => ?_, fun cookie s9 => ?_,
    fun hexp => ?_, fun cookie hfal => ?_⟩
  · have hnow : (now : Rat) ≤ E := by linarith
    have htl : (E - (now : Rat)) / 60 ≤ w := (div_le_iff₀ h60).mpr (by linarith)
    rw [check_numeric_shape w t p E now s hp he hE hnow]
    rw [if_neg (fun hc => by rw [hd] at hc; exact Bool.noConfusion hc.2.2)]
    rw [if_neg (not_lt.mpr htl)]
    exact ⟨hpop, hd⟩
  · have hnow : (now : Rat) ≤ E := by nlinarith
    have htl : w < (E - (now : Rat)) / 60 := (lt_div_iff₀ h60).mpr (by linarith)
    rw [check_numeric_shape w t p E now s hp he hE hnow]
    rw [if_neg (fun hc => absurd hc.1 (not_le.mpr htl))]
    rw [if_pos htl]
    exact ⟨rfl, rfl⟩
  · exact check_dismissed_stays_false w cookie now _ rfl
  · cases t with
    | nil => rfl
    | cons c rest =>
      norm_num [checkTokenExpiration, tokenTruthy, Option.getD, hexp]
  · cases cookie with
    | none => rfl
    | some t0 =>
      simp only [checkTokenExpiration, hfal, Bool.not_false]
      rfl

/-- Witness for C7 at the concrete `exp = 300` token: suppression at 200
seconds remaining, re-arming at 500 seconds remaining, clearing by
`resetTimer`, and preservation on an expired tick and on a missing
cookie. -/
theorem monitor_dismissal_protocol_witness :
    (checkTokenExpiration 5 (some tok300) 100
      { showPopup := false, timeRemaining := 0, isExpired := false,
        popupDismissed := true }).popupDismissed = true ∧
    (checkTokenExpiration 5 (some tok300) (-200)
      { showPopup := false, timeRemaining := 0, isExpired := false,
        popupDismissed := true }).popupDismissed = false ∧
    (resetTimer 5 (some tok300) 100 initialMonitorState).popupDismissed = false ∧
    (checkTokenExpiration 5 (some tok300) 400
      { showPopup := false, timeRemaining := 0, isExpired := false,
        popupDismissed := true }).popupDismissed = true ∧
    (checkTokenExpiration 5 none 0
      { showPopup := false, timeRemaining := 0, isExpired := false,
        popupDismissed := true }).popupDismissed = true := by
  refine ⟨?_, ?_, ?_, ?_, ?_⟩
  · exact ((monitor_dismissal_protocol 5 tok300 (.obj [(lit "exp", .num 300)]) 300 100
      { showPopup := false, timeRemaining := 0, isExpired := false, popupDismissed := true }
      rfl rfl (by norm_num)).1 rfl rfl (by norm_num) (by norm_num)).2
  · exact ((monitor_dismissal_protocol 5 tok300 (.obj [(lit "exp", .num 300)]) 300 (-200)
      { showPopup := false, timeRemaining := 0, isExpired := false, popupDismissed := true }
      rfl rfl (by norm_num)).2.1 (by norm_num) (by norm_num)).1
  · exact (monitor_dismissal_protocol 5 tok300 (.obj [(lit "exp", .num 300)]) 300 100
      initialMonitorState rfl rfl (by norm_num)).2.2.1 (some tok300) initialMonitorState
  · exact (monitor_dismissal_protocol 5 tok300 (.obj [(lit "exp", .num 300)]) 300 400
      { showPopup := false, timeRemaining := 0, isExpired := false, popupDismissed := true }
      rfl rfl (by norm_num)).2.2.2.1 rfl
  · exact (monitor_dismissal_protocol 5 tok300 (.obj [(lit "exp", .num 300)]) 300 0
      { showPopup := false, timeRemaining := 0, isExpired := false, popupDismissed := true }
      rfl rfl (by norm_num)).2.2.2.2 none rfl

/-! C8. -/

/-- C8: when the refresh attempt fails, `handleRefresh` leaves the stored
token, the user context, the current route, the popup visibility and the
monitor state unchanged; the whole state changes only in the cleared
in-flight flag, so there is no logout and no navigation to login. -/
theorem handleRefresh_failure_frame (onRefresh onClose : ClientState → ClientState)
    (st : ClientState) :
    (handleRefresh onRefresh onClose st .failure).cookieToken = st.cookieToken ∧
    (handleRefresh onRefresh onClose st .failure).userCtx = st.userCtx ∧
    (handleRefresh onRefresh onClose st .failure).route = st.route ∧
    (handleRefresh onRefresh onClose st .failure).popupOpen = st.popupOpen ∧
    (handleRefresh onRefresh onClose st .failure).monitor = st.monitor ∧
    handleRefresh onRefresh onClose st .failure = { st with isRefreshing := false } :=
  ⟨rfl, rfl, rfl, rfl, rfl, rfl⟩

/-! C9. -/

/-- C9: every path matching an ignored-route prefix (in particular any
path that would also match a protected prefix) is passed through
untouched, with the same result for every cookie state and every clock
value, so no token extraction, expiry check or redirect takes place. -/
theorem middleware_ignored_pass_through (path : Str) (cookieToken : Option Str) (now : Int)
    (hign : isIgnoredRoute path = true) :
    middleware path cookieToken now = nextResponse := by
  unfold middleware
  rw [hign]
  simp

/-- Witness for C9 at a concrete ignored path with a token present. -/
theorem middleware_ignored_pass_through_witness :
    middleware (lit "/api/users") (some tok300) 123 = nextResponse :=
  middleware_ignored_pass_through (lit "/api/users") (some tok300) 123 (by decide)

/-! C10. -/

/-- C10: `parseJWT` and `isTokenExpired` are total functions in the model
(the JS exceptions are all caught and modelled as values).  `parseJWT`
returns `none` whenever the input does not split into exactly three
dot-separated parts, whenever the second part fails base64url decoding,
and whenever the decoded bytes fail JSON parsing; `isTokenExpired`
returns `true` for every such malformed string and for every parseable
payload lacking an `exp` member. -/
theorem jwt_parsing_total_rules (s : Str) (now : Int) :
    ((splitOnDot s).length ≠ 3 → parseJWT s = none) ∧
    (∀ h1 p g, splitOnDot s = [h1, p, g] → atob (b64urlPrep p) = none →
      parseJWT s = none) ∧
    (∀ h1 p g bytes, splitOnDot s = [h1, p, g] → atob (b64urlPrep p) = some bytes →
      jsonParse (bytes.map Char.ofNat) = none → parseJWT s = none) ∧
    (parseJWT s = none → isTokenExpired s now = true) ∧
    (∀ v, parseJWT s = some v → getField v (lit "exp") = none →
      isTokenExpired s now = true) := by
  refine ⟨?_, ?_, ?_, ?_, ?_⟩
  · intro hlen
    unfold parseJWT
    split
    · rename_i h1 p g heq
      exact absurd (by rw [heq]; rfl) hlen
    · rfl
  · intro h1 p g hsp hatob
    unfold parseJWT
    simp only [hsp, hatob]
  · intro h1 p g bytes hsp hatob hjson
    unfold parseJWT
    simp only [hsp, hatob, hjson]
  · intro hnone
    unfold isTokenExpired
    simp only [hnone]
  · intro v hv hf
    unfold isTokenExpired
    simp only [hv, hf]

/-- Witness for C10: a one-part string, a three-part string whose payload
fails base64 decoding, a three-part string whose decoded payload is not
JSON, and a parseable payload without `exp`. -/
theorem jwt_parsing_total_rules_witness :
    parseJWT (lit "nodots") = none ∧
    isTokenExpired (lit "nodots") 0 = true ∧
    parseJWT (lit "a.!.c") = none ∧
    parseJWT (lit "a.AA.c") = none ∧
    isTokenExpired tokNoExp 0 = true := by
  refine ⟨?_, ?_, ?_, ?_, ?_⟩
  · exact (jwt_parsing_total_rules (lit "nodots") 0).1 (by decide)
  · exact (jwt_parsing_total_rules (lit "nodots") 0).2.2.2.1
      ((jwt_parsing_total_rules (lit "nodots") 0).1 (by decide))
  · exact (jwt_parsing_total_rules (lit "a.!.c") 0).2.1 (lit "a") (lit "!") (lit "c")
      (by decide) (by decide)
  · exact (jwt_parsing_total_rules (lit "a.AA.c") 0).2.2.1 (lit "a") (lit "AA") (lit "c")
      [0] (by decide) (by decide) rfl
  · exact (jwt_parsing_total_rules tokNoExp 0).2.2.2.2 (.obj [(lit "a", .num 1)]) rfl rfl
